import Mathlib

/-!
Verification of the interaction layer in `script.js` of the LuminaFlow
marketing site.  The DOM state touched by each handler group (pricing
toggle, FAQ accordion, theme toggle, smooth scrolling, lightbox, counter
animation, contact form) is embedded as explicit Lean state records, and
each handler as a pure state-transition function translated from the
JavaScript source.  Nullable DOM references become `Option`, datasets and
`localStorage` become association lists, and `Math.random()` becomes an
explicit rational input.
-/

/-- JS `String(b)` conversion for a boolean. -/
def jsStringOfBool (b : Bool) : String := if b then "true" else "false"

/-! ### Pricing toggle (`updatePricing` and the billing-button click handler) -/

/-- One `.toggle-option` billing button: its `data-billing` attribute, whether
its class list contains `is-active`, and its `aria-pressed` attribute. -/
structure ToggleOption where
  billing : String
  isActive : Bool
  ariaPressed : String
deriving Repr, DecidableEq

/-- The `.amount` element of a pricing card: its text content and its
`dataset` (`data-monthly`, `data-yearly`, ...), keyed by camel-cased name. -/
structure AmountEl where
  textContent : String
  dataset : List (String × String)
deriving Repr, DecidableEq

/-- The `.plan-cta` link of a pricing card: its `href` attribute and its
`dataset` (`data-monthly-link` appears under the key "monthlyLink"). -/
structure PlanCta where
  href : String
  dataset : List (String × String)
deriving Repr, DecidableEq

/-- A `.pricing-card`: its `.amount` and `.plan-cta` descendants, either of
which `querySelector` may fail to find. -/
structure PricingCard where
  amountEl : Option AmountEl
  cta : Option PlanCta
deriving Repr, DecidableEq

/-- The DOM state the pricing code reads and writes: the billing buttons,
the cards, and the text of the `.pricing-card .cycle` suffix elements. -/
structure PricingState where
  buttons : List ToggleOption
  cards : List PricingCard
  suffixes : List String
deriving Repr, DecidableEq

/-- Body of the per-card `forEach` in `updatePricing`: bail out unless both
`.amount` and `.plan-cta` exist, then write the amount text from
`amountEl.dataset[billing]` and the link from `cta.dataset[billing + "Link"]`,
each only when the dataset entry is present and truthy (non-empty). -/
def updateCard (billing : String) (card : PricingCard) : PricingCard :=
  match card.amountEl, card.cta with
  | some amountEl, some cta =>
    let amountEl' :=
      match amountEl.dataset.lookup billing with
      | some price => if price == "" then amountEl else { amountEl with textContent := price }
      | none => amountEl
    let cta' :=
      match cta.dataset.lookup (billing ++ "Link") with
      | some href => if href == "" then cta else { cta with href := href }
      | none => cta
    { amountEl := some amountEl', cta := some cta' }
  | _, _ => card

/-- `updatePricing(billing)`: set each button's `is-active` class and
`aria-pressed` from whether its `data-billing` matches, update every card,
and set every cycle suffix to "/mo billed yearly" or "/mo". -/
def updatePricing (billing : String) (st : PricingState) : PricingState :=
  { buttons := st.buttons.map fun btn =>
      let isActive := btn.billing == billing
      { btn with isActive := isActive, ariaPressed := jsStringOfBool isActive },
    cards := st.cards.map (updateCard billing),
    suffixes := st.suffixes.map fun _ =>
      if billing == "yearly" then "/mo billed yearly" else "/mo" }

/-- Click handler of billing button `i`: a no-op when the button already has
the `is-active` class, otherwise `updatePricing(btn.dataset.billing)`. -/
def clickBillingOption (i : Nat) (st : PricingState) : PricingState :=
  match st.buttons[i]? with
  | none => st
  | some btn => if btn.isActive then st else updatePricing btn.billing st

/-! ### Theme toggle (`applyTheme`, click handler, initial application) -/

/-- The state the theme code touches: the `data-theme` attribute on
`documentElement` (absent = `none`), `localStorage`, and the text of the
`.theme-icon` element when that element exists. -/
structure ThemeState where
  docTheme : Option String
  storage : List (String × String)
  themeIcon : Option String
deriving Repr, DecidableEq

/-- `localStorage.setItem`: replace the first binding of `key` or append. -/
def storageSetItem (key value : String) : List (String × String) → List (String × String)
  | [] => [(key, value)]
  | (k, v) :: rest =>
    if k == key then (k, value) :: rest else (k, v) :: storageSetItem key value rest

/-- `applyTheme(theme)`: set the `data-theme` attribute, persist under the
key "luminaflow-theme", and set the icon glyph when the icon exists. -/
def applyTheme (theme : String) (st : ThemeState) : ThemeState :=
  { docTheme := some theme,
    storage := storageSetItem "luminaflow-theme" theme st.storage,
    themeIcon := st.themeIcon.map fun _ => if theme == "dark" then "🌙" else "☀️" }

/-- JS `a || b` for a nullable string: `null` and the empty string are falsy. -/
def jsOrString (a : Option String) (b : String) : String :=
  match a with
  | some s => if s == "" then b else s
  | none => b

/-- The theme-toggle click handler: read the current theme as "dark" exactly
when the attribute is the string "dark", flip it, and apply. -/
def themeToggleClick (st : ThemeState) : ThemeState :=
  let currentTheme := if st.docTheme == some "dark" then "dark" else "light"
  let nextTheme := if currentTheme == "dark" then "light" else "dark"
  applyTheme nextTheme st

/-- Load-time theme application: `applyTheme(initialTheme || 'light')` where
`initialTheme` is the pre-existing `data-theme` attribute. -/
def initTheme (st : ThemeState) : ThemeState :=
  applyTheme (jsOrString st.docTheme "light") st

/-! ### Smooth scrolling (`scrollToHash`) -/

/-- The document data `scrollToHash` reads: a map from selector to the
bounding-rect top of the matching element (absent selector = no element),
the window scroll offset, and the header's `offsetHeight` when a
`.site-header` exists. -/
structure PageDoc where
  elements : List (String × ℚ)
  scrollY : ℚ
  headerHeight : Option ℚ
deriving Repr, DecidableEq

/-- `scrollToHash(hash)`: `none` when the selector resolves to no element,
otherwise the `top` passed to `window.scrollTo`, namely the target's
document-top position minus the header height plus one. -/
def scrollToHash (hash : String) (doc : PageDoc) : Option ℚ :=
  match doc.elements.lookup hash with
  | none => none
  | some rectTop => some (rectTop + doc.scrollY - (doc.headerHeight.getD 0) + 1)

/-! ### FAQ accordion (`setAccordionState` and the trigger click handler) -/

/-- An `.accordion-trigger` element: its `id`, its `aria-controls` attribute
(possibly absent), and its `aria-expanded` attribute. -/
structure AccordionTrigger where
  id : String
  ariaControls : Option String
  ariaExpanded : String
deriving Repr, DecidableEq

/-- An accordion panel: its `aria-hidden` attribute, its inline `max-height`
style, and its (read-only) `scrollHeight`. -/
structure AccordionPanel where
  ariaHidden : String
  maxHeight : String
  scrollHeight : Nat
deriving Repr, DecidableEq

/-- The accordion DOM state: the trigger list captured at load, the panels
addressable by `getElementById`, and the module-level `openAccordionId`. -/
structure AccordionState where
  triggers : List AccordionTrigger
  panels : List (String × AccordionPanel)
  openAccordionId : Option String
deriving Repr, DecidableEq

/-- `document.getElementById` over the panel list: first binding wins. -/
def lookupPanel (panels : List (String × AccordionPanel)) (pid : String) :
    Option AccordionPanel :=
  (panels.lookup pid)

/-- Update the first panel bound to `pid`, leaving the rest untouched. -/
def updatePanelById (pid : String) (f : AccordionPanel → AccordionPanel) :
    List (String × AccordionPanel) → List (String × AccordionPanel)
  | [] => []
  | (k, p) :: rest =>
    if k == pid then (k, f p) :: rest else (k, p) :: updatePanelById pid f rest

/-- `setAccordionState(trigger, expanded)` for the trigger at index `i`: set
its `aria-expanded`, then, when its `aria-controls` resolves to a panel, set
the panel's `aria-hidden` to `String(!expanded)` and its `max-height` (the
measured scroll height when expanding, "0px" when collapsing), and maintain
`openAccordionId`. -/
def setAccordionState (st : AccordionState) (i : Nat) (expanded : Bool) : AccordionState :=
  match st.triggers[i]? with
  | none => st
  | some trigger =>
    let rest : List (String × AccordionPanel) × Option String :=
      match trigger.ariaControls with
      | none => (st.panels, st.openAccordionId)
      | some pid =>
        match lookupPanel st.panels pid with
        | none => (st.panels, st.openAccordionId)
        | some _ =>
          (updatePanelById pid (fun p =>
            if expanded then
              { p with ariaHidden := jsStringOfBool false,
                       maxHeight := toString p.scrollHeight ++ "px" }
            else
              { p with ariaHidden := jsStringOfBool true, maxHeight := "0px" }) st.panels,
           if expanded then some trigger.id
           else if st.openAccordionId == some trigger.id then none
           else st.openAccordionId)
    { triggers := st.triggers.set i { trigger with ariaExpanded := jsStringOfBool expanded },
      panels := rest.1,
      openAccordionId := rest.2 }

/-- The `forEach` in the click handler that collapses every trigger other
than the clicked one, in trigger order. -/
def collapseOthers (st : AccordionState) (i : Nat) : AccordionState :=
  (List.range st.triggers.length).foldl
    (fun acc j => if j == i then acc else setAccordionState acc j false) st

/-- Click handler of the trigger at index `i`: read whether it is expanded,
collapse all others, then set it to the negation of what was read. -/
def clickTrigger (st : AccordionState) (i : Nat) : AccordionState :=
  match st.triggers[i]? with
  | none => st
  | some trigger =>
    let isExpanded := trigger.ariaExpanded == "true"
    setAccordionState (collapseOthers st i) i (!isExpanded)

/-- Load-time initialization: `setAccordionState(trigger, false)` for every
trigger in order. -/
def initAccordion (st : AccordionState) : AccordionState :=
  (List.range st.triggers.length).foldl (fun acc j => setAccordionState acc j false) st

/-- Run a sequence of trigger clicks (each given by a trigger index). -/
def applyClicks (clicks : List Nat) (st : AccordionState) : AccordionState :=
  clicks.foldl clickTrigger st

/-- The accordion mutual-exclusion invariant: at most one trigger carries
`aria-expanded="true"`. -/
def atMostOneExpanded (st : AccordionState) : Prop :=
  ∀ (j k : Nat) (tj tk : AccordionTrigger),
    st.triggers[j]? = some tj → st.triggers[k]? = some tk →
    tj.ariaExpanded = "true" → tk.ariaExpanded = "true" → j = k

/-! ### Lightbox (`openLightbox` / `hideLightbox`) -/

/-- A focusable DOM element, identified by a token, together with whether it
is an `HTMLElement` (the `instanceof` check in `hideLightbox`). -/
structure DomElem where
  elemId : Nat
  isHTMLElement : Bool
deriving Repr, DecidableEq

/-- A gallery thumbnail carrying `src`, `alt` and the `data-lightbox`
caption attribute. -/
structure GalleryImage where
  src : String
  alt : String
  lightboxData : Option String
deriving Repr, DecidableEq

/-- The `.lightbox-image` element's mutable `src` and `alt`. -/
structure LightboxImageEl where
  src : String
  alt : String
deriving Repr, DecidableEq

/-- The state the lightbox code touches.  `ariaHidden` is the overlay's
`aria-hidden` attribute (`none` when no `.lightbox` element exists at all),
and similarly `image` and `caption` are `none` when those elements are
missing.  `activeElement` is `document.activeElement`. -/
structure LightboxState where
  ariaHidden : Option String
  image : Option LightboxImageEl
  caption : Option String
  closeBtn : Option DomElem
  lastFocusedElement : Option DomElem
  activeElement : Option DomElem
  bodyOverflow : String
deriving Repr, DecidableEq

/-- `openLightbox(img)`: bail out unless the overlay, image and caption
elements all exist; capture the active element, populate the image and
caption from the thumbnail, flip `aria-hidden` to "false", focus the close
control when it exists, and lock body overflow. -/
def openLightbox (img : GalleryImage) (st : LightboxState) : LightboxState :=
  match st.ariaHidden, st.image, st.caption with
  | some _, some _, some _ =>
    { st with
      lastFocusedElement := st.activeElement,
      image := some { src := img.src, alt := img.alt },
      caption := some (img.lightboxData.getD ""),
      ariaHidden := some "false",
      activeElement := match st.closeBtn with
        | some c => some c
        | none => st.activeElement,
      bodyOverflow := "hidden" }
  | _, _, _ => st

/-- `hideLightbox()`: bail out when no overlay exists; flip `aria-hidden` to
"true", release the overflow lock, clear the image's `src` and `alt` when
the image element exists, and focus the captured element when it is an
`HTMLElement`. -/
def hideLightbox (st : LightboxState) : LightboxState :=
  match st.ariaHidden with
  | none => st
  | some _ =>
    { st with
      ariaHidden := some "true",
      bodyOverflow := "",
      image := st.image.map fun _ => { src := "", alt := "" },
      activeElement := match st.lastFocusedElement with
        | some e => if e.isHTMLElement then some e else st.activeElement
        | none => st.activeElement }

/-! ### Counter animation (`animateCounter`) -/

/-- The ease-in-out-quadratic curve used by the counter step. -/
def easeInOutQuad (p : ℚ) : ℚ :=
  if p < 1/2 then 2 * p * p else -1 + (4 - 2 * p) * p

/-- Split a character list into chunks of three (last chunk may be short). -/
def chunksOf3 : List Char → List (List Char)
  | [] => []
  | a :: b :: c :: rest => [a, b, c] :: chunksOf3 rest
  | l => [l]

/-- Digit grouping of a natural number as produced by
`Number.prototype.toLocaleString` in an en-style locale: groups of three
digits separated by commas. -/
def natGrouped (n : Nat) : String :=
  let groups := (chunksOf3 (toString n).toList.reverse).map List.reverse
  String.intercalate "," (groups.reverse.map fun g => String.mk g)

/-- `toLocaleString` on an integral number. -/
def toLocaleString (n : ℤ) : String :=
  if n < 0 then "-" ++ natGrouped n.natAbs else natGrouped n.natAbs

/-- The fixed animation duration of `animateCounter`. -/
def counterDuration : ℚ := 1600

/-- Progress of the frame at time `t` for an animation started at `t0`:
`Math.min((currentTime - startTime) / duration, 1)`. -/
def counterProgress (t0 t : ℚ) : ℚ := min ((t - t0) / counterDuration) 1

/-- Text content at the end of the `step` callback that ran at time `t`
(with `start = 0`, the non-reduced-motion case): the floored eased value,
overwritten by the exact target in the frame where progress reaches 1. -/
def counterFrameText (target : ℤ) (t0 t : ℚ) : String :=
  let progress := counterProgress t0 t
  let eased := easeInOutQuad progress
  let value := ⌊(0 : ℚ) + ((target : ℚ) - 0) * eased⌋
  if progress < 1 then toLocaleString value else toLocaleString target

/-- Run the frame loop over the given frame times: each frame rewrites the
text, and the loop re-schedules itself only while progress stays below 1. -/
def runCounter (target : ℤ) (t0 : ℚ) : List ℚ → String → String
  | [], text => text
  | t :: ts, _ =>
    let text := counterFrameText target t0 t
    if counterProgress t0 t < 1 then runCounter target t0 ts text
    else text

/-- `animateCounter`: under reduced motion write the formatted target
directly; otherwise run the frame loop from the element's prior text. -/
def animateCounter (reducedMotion : Bool) (target : ℤ) (t0 : ℚ)
    (frames : List ℚ) (initialText : String) : String :=
  if reducedMotion then toLocaleString target
  else runCounter target t0 frames initialText

/-! ### Contact form (validation, submission, simulated fallback) -/

/-- The part of a control's `ValidityState` the code branches on beyond
`valueMissing`: a type mismatch, or any other constraint violation. -/
structure ValidityFlags where
  typeMismatch : Bool
  otherInvalid : Bool
deriving Repr, DecidableEq

/-- A form control (`input` or `textarea`): its current and default value,
its `required` flag, its remaining validity flags, and the text of its
`.field-error` slot (`none` when the `.form-field` container or the slot is
missing, in which case `setFieldError` writes nothing). -/
structure FormFieldEl where
  value : String
  defaultValue : String
  required : Bool
  validity : ValidityFlags
  errorSlot : Option String
deriving Repr, DecidableEq

/-- HTML constraint validation: `validity.valueMissing` holds for a
`required` control whose value is empty. -/
def valueMissing (f : FormFieldEl) : Bool := f.required && f.value == ""

/-- HTML constraint validation: `validity.valid` holds when no constraint
is violated. -/
def fieldValid (f : FormFieldEl) : Bool :=
  !(valueMissing f) && !f.validity.typeMismatch && !f.validity.otherInvalid

/-- `setFieldError(field, message)`: write the message into the field's
error slot when the containing `.form-field` and the slot exist. -/
def setFieldError (message : String) (f : FormFieldEl) : FormFieldEl :=
  { f with errorSlot := f.errorSlot.map fun _ => message }

/-- `validateField(field)`: clear the slot and succeed on a valid field,
otherwise report the first matching message class and fail. -/
def validateField (f : FormFieldEl) : FormFieldEl × Bool :=
  if fieldValid f then (setFieldError "" f, true)
  else if valueMissing f then (setFieldError "This field is required." f, false)
  else if f.validity.typeMismatch then (setFieldError "Please enter a valid value." f, false)
  else (setFieldError "Please correct this field." f, false)

/-- The submit handler's opening `forEach`: validate every field, and record
whether all of them were valid. -/
def validateAll (fields : List FormFieldEl) : List FormFieldEl × Bool :=
  (fields.map fun f => (validateField f).1, fields.all fun f => (validateField f).2)

/-- The contact-form state the submit handler touches: the controls and the
text of the `.form-status` region (`none` when that element is missing). -/
structure ContactFormState where
  fields : List FormFieldEl
  statusText : Option String
deriving Repr, DecidableEq

/-- Outcome of the `fetch('/api/contact', ...)` call: resolved with a
response (carrying `response.ok`), or rejected (network failure, or the
1500 ms timeout firing `controller.abort()`). -/
inductive FetchOutcome where
  | resolved (ok : Bool)
  | rejected
deriving Repr, DecidableEq

/-- The delay of the simulated-network fallback in the `catch` branch:
`await new Promise((resolve) => setTimeout(resolve, 600))`. -/
def fallbackDelayMs : Nat := 600

/-- The `success` flag after the try/catch: `response.ok` when the fetch
resolved, otherwise the fallback draw `Math.random() > 0.3` with the random
number modeled as an explicit rational input. -/
def resolveSubmitSuccess (outcome : FetchOutcome) (rand : ℚ) : Bool :=
  match outcome with
  | .resolved ok => ok
  | .rejected => decide (rand > 3/10)

/-- The closing `if (statusEl)` block: on success write the success status,
reset the form (every control back to its default value) and clear every
error slot; on failure only write the failure status.  Nothing happens when
the status element is missing. -/
def finishSubmit (success : Bool) (st : ContactFormState) : ContactFormState :=
  match st.statusText with
  | none => st
  | some _ =>
    if success then
      { statusText := some "Message sent! We will reach out shortly. (Demo response)",
        fields := st.fields.map fun f => setFieldError "" { f with value := f.defaultValue } }
    else
      { st with
        statusText := some "Something went wrong. Please try again later. (Demo response)" }

/-- The whole submit handler: validate all fields and stop before any
network activity when one is invalid (the returned flag records whether the
fetch was initiated); otherwise write the sending status, resolve success
from the fetch outcome (or the fallback draw), and finish. -/
def submitContactForm (st : ContactFormState) (outcome : FetchOutcome) (rand : ℚ) :
    ContactFormState × Bool :=
  let validated := validateAll st.fields
  let st' : ContactFormState := { st with fields := validated.1 }
  if !validated.2 then (st', false)
  else
    let st'' : ContactFormState :=
      { st' with statusText := st'.statusText.map fun _ => "Sending…" }
    (finishSubmit (resolveSubmitSuccess outcome rand) st'', true)

/-! ### Concrete demo states, used to exercise the theorems below -/

/-- A small pricing section: two billing buttons, a fully attributed card, a
card lacking the yearly data, and a card lacking both inner elements. -/
def pricingDemo : PricingState :=
  { buttons := [⟨"monthly", true, "true"⟩, ⟨"yearly", false, "false"⟩],
    cards :=
      [ { amountEl := some ⟨"19", [("monthly", "19"), ("yearly", "15")]⟩,
          cta := some ⟨"#m1", [("monthlyLink", "#m1"), ("yearlyLink", "#y1")]⟩ },
        { amountEl := some ⟨"49", [("monthly", "49")]⟩, cta := some ⟨"#m2", []⟩ },
        { amountEl := none, cta := none } ],
    suffixes := ["/mo", "/mo", "/mo"] }

/-- A two-item accordion in its raw (pre-initialization) markup state. -/
def accordionDemo : AccordionState :=
  { triggers :=
      [⟨"faq-t0", some "faq-p0", "false"⟩, ⟨"faq-t1", some "faq-p1", "true"⟩],
    panels := [("faq-p0", ⟨"true", "", 120⟩), ("faq-p1", ⟨"false", "", 80⟩)],
    openAccordionId := none }

/-- A required name field submitted empty, with an error slot present. -/
def emptyNameField : FormFieldEl :=
  { value := "", defaultValue := "", required := true,
    validity := ⟨false, false⟩, errorSlot := some "" }

/-- A satisfied required field. -/
def filledField : FormFieldEl :=
  { value := "hello", defaultValue := "", required := true,
    validity := ⟨false, false⟩, errorSlot := some "" }

/-- A contact form whose name field is empty. -/
def contactDemo : ContactFormState :=
  { fields := [emptyNameField, filledField], statusText := some "" }

/-- A contact form with every field satisfied. -/
def contactFilledDemo : ContactFormState :=
  { fields := [filledField, filledField], statusText := some "" }

/-- A closed lightbox with all of its elements present and a focused
gallery thumbnail. -/
def lightboxDemo : LightboxState :=
  { ariaHidden := some "true", image := some ⟨"", ""⟩, caption := some "",
    closeBtn := some ⟨10, true⟩, lastFocusedElement := none,
    activeElement := some ⟨3, true⟩, bodyOverflow := "" }

/-- A gallery thumbnail with a caption attribute. -/
def thumbDemo : GalleryImage := { src := "a.svg", alt := "A", lightboxData := some "Cap" }

/-- A document with one anchor target, a scrolled window and a header. -/
def pageDemo : PageDoc :=
  { elements := [("#pricing", 1200)], scrollY := 40, headerHeight := some 64 }

/-! ## Shared lemmas -/

/-- Setting a storage key makes a later lookup of that key see the value. -/
theorem storageSetItem_lookup (key value : String) (storage : List (String × String)) :
    (storageSetItem key value storage).lookup key = some value := by
  induction storage with
  | nil => simp [storageSetItem, List.lookup]
  | cons kv rest ih =>
    obtain ⟨k, v⟩ := kv
    by_cases h : k = key
    · subst h; simp [storageSetItem, List.lookup]
    · have hb : (k == key) = false := by simp [h]
      have hb' : (key == k) = false := by simp [Ne.symm h]
      simp [storageSetItem, hb, hb', List.lookup, ih]

/-! ## Claim theorems -/

/-- C8: for an in-page anchor whose hash resolves to an element, the
smooth-scroll destination is the target's document-top position
(`rect.top + scrollY`) minus the header height plus one pixel; when the
hash resolves to no element, `scrollToHash` performs no scroll. -/
theorem scrollToHash_spec (hash : String) (doc : PageDoc) :
    (∀ rectTop : ℚ, doc.elements.lookup hash = some rectTop →
        scrollToHash hash doc
          = some (rectTop + doc.scrollY - (doc.headerHeight.getD 0) + 1))
    ∧ (doc.elements.lookup hash = none → scrollToHash hash doc = none) := by
  constructor
  · intro rectTop h
    simp [scrollToHash, h]
  · intro h
    simp [scrollToHash, h]

/-- Witness for C8 on the concrete document `pageDemo`. -/
theorem scrollToHash_spec_witness :
    scrollToHash "#pricing" pageDemo = some 1177 ∧ scrollToHash "#contact" pageDemo = none := by
  refine ⟨?_, (scrollToHash_spec "#contact" pageDemo).2 (by rfl)⟩
  have h := (scrollToHash_spec "#pricing" pageDemo).1 1200 (by rfl)
  rw [h]
  norm_num [pageDemo]

/-- C9: the theme-toggle click handler reads every `data-theme` value other
than the exact string "dark" (absent included) as light and therefore
transitions to dark; from "dark" it transitions to light. -/
theorem theme_toggle_flip_spec (st : ThemeState) :
    (st.docTheme ≠ some "dark" → (themeToggleClick st).docTheme = some "dark")
    ∧ (st.docTheme = some "dark" → (themeToggleClick st).docTheme = some "light") := by
  constructor
  · intro h
    have hb : (st.docTheme == some "dark") = false := by
      simp [beq_eq_false_iff_ne, h]
    simp [themeToggleClick, hb, applyTheme]
  · intro h
    simp [themeToggleClick, h, applyTheme]

/-- Witness for C9: toggling from an absent attribute and from an arbitrary
attribute both land on dark; toggling from dark lands on light. -/
theorem theme_toggle_flip_spec_witness :
    (themeToggleClick { docTheme := none, storage := [], themeIcon := none }).docTheme
      = some "dark"
    ∧ (themeToggleClick { docTheme := some "banana", storage := [], themeIcon := none }).docTheme
      = some "dark"
    ∧ (themeToggleClick { docTheme := some "dark", storage := [], themeIcon := none }).docTheme
      = some "light" :=
  ⟨(theme_toggle_flip_spec _).1 (by decide),
   (theme_toggle_flip_spec _).1 (by decide),
   (theme_toggle_flip_spec _).2 (by decide)⟩

/-- C7 counterexample: the claim says the load-time applied theme is the
pre-existing document theme attribute whenever one is present, but a
present-but-empty attribute is falsy in `initialTheme || 'light'`, so the
code applies "light" instead of the present attribute value. -/
theorem initTheme_empty_attribute_counterexample :
    ((initTheme { docTheme := some "", storage := [], themeIcon := none }).docTheme
        = some "light")
    ∧ (initTheme { docTheme := some "", storage := [], themeIcon := none }).docTheme
        ≠ (some "" : Option String) := by
  constructor
  · rfl
  · decide

/-- C7 (amended): `applyTheme(t)` sets the document theme attribute to `t`,
stores `t` under the key "luminaflow-theme", and sets the icon glyph to the
moon exactly when `t` is dark; at load the applied theme is the pre-existing
document theme attribute when present and non-empty, else "light". -/
theorem applyTheme_and_init_spec (t : String) (st : ThemeState) (icon : String)
    (_ht : t = "light" ∨ t = "dark") (hicon : st.themeIcon = some icon) :
    (applyTheme t st).docTheme = some t
    ∧ (applyTheme t st).storage.lookup "luminaflow-theme" = some t
    ∧ (applyTheme t st).themeIcon = some (if t = "dark" then "🌙" else "☀️")
    ∧ (∀ s : String, st.docTheme = some s → s ≠ "" → (initTheme st).docTheme = some s)
    ∧ ((st.docTheme = none ∨ st.docTheme = some "") → (initTheme st).docTheme = some "light") := by
  refine ⟨rfl, storageSetItem_lookup _ _ _, ?_, ?_, ?_⟩
  · by_cases hd : t = "dark" <;> simp [applyTheme, hicon, hd]
  · intro s hs hns
    have hb : (s == "") = false := by simp [hns]
    simp [initTheme, jsOrString, hs, hb, applyTheme]
  · rintro (hs | hs) <;> simp [initTheme, jsOrString, hs, applyTheme]

/-- Witness for the amended C7 on concrete states. -/
theorem applyTheme_and_init_spec_witness :
    (applyTheme "dark" { docTheme := none, storage := [], themeIcon := some "☀️" }).storage.lookup
        "luminaflow-theme" = some "dark"
    ∧ (applyTheme "dark" { docTheme := none, storage := [], themeIcon := some "☀️" }).themeIcon
        = some "🌙"
    ∧ (initTheme { docTheme := some "dark", storage := [], themeIcon := some "☀️" }).docTheme
        = some "dark"
    ∧ (initTheme { docTheme := none, storage := [], themeIcon := some "☀️" }).docTheme
        = some "light" := by
  obtain ⟨h1, h2, h3, h4, h5⟩ :=
    applyTheme_and_init_spec "dark" { docTheme := none, storage := [], themeIcon := some "☀️" }
      "☀️" (Or.inr rfl) rfl
  obtain ⟨g1, g2, g3, g4, g5⟩ :=
    applyTheme_and_init_spec "dark" { docTheme := some "dark", storage := [], themeIcon := some "☀️" }
      "☀️" (Or.inr rfl) rfl
  exact ⟨h2, by simpa using h3, g4 "dark" rfl (by decide), h5 (Or.inl rfl)⟩

/-- C1: after `updatePricing('yearly')` every conforming card (one whose
`.amount` and `.plan-cta` exist and whose yearly price attribute is present
and non-empty) displays exactly its yearly price attribute, every cycle
suffix reads "/mo billed yearly", and clicking a billing button that is
already active leaves the whole pricing state unchanged. -/
theorem pricing_yearly_update_correct (st : PricingState) :
    (∀ (i : Nat) (card : PricingCard) (amountEl : AmountEl) (cta : PlanCta) (price : String),
        st.cards[i]? = some card →
        card.amountEl = some amountEl → card.cta = some cta →
        amountEl.dataset.lookup "yearly" = some price → price ≠ "" →
        ∃ card' amountEl', (updatePricing "yearly" st).cards[i]? = some card'
          ∧ card'.amountEl = some amountEl' ∧ amountEl'.textContent = price)
    ∧ (∀ s ∈ (updatePricing "yearly" st).suffixes, s = "/mo billed yearly")
    ∧ (∀ (j : Nat) (btn : ToggleOption), st.buttons[j]? = some btn → btn.isActive = true →
        clickBillingOption j st = st) := by
  refine ⟨?_, ?_, ?_⟩
  · intro i card amountEl cta price hcard hamount hcta hprice hne
    have hbe : (price == "") = false := by simp [hne]
    refine ⟨updateCard "yearly" card, { amountEl with textContent := price }, ?_, ?_, rfl⟩
    · simp [updatePricing, List.getElem?_map, hcard]
    · simp [updateCard, hamount, hcta, hprice, hbe]
  · intro s hs
    simp only [updatePricing, List.mem_map] at hs
    obtain ⟨_, _, hval⟩ := hs
    simpa using hval.symm
  · intro j btn hbtn hactive
    simp [clickBillingOption, hbtn, hactive]

/-- Witness for C1 on the concrete pricing section `pricingDemo`. -/
theorem pricing_yearly_update_correct_witness :
    (∃ card' amountEl', (updatePricing "yearly" pricingDemo).cards[0]? = some card'
      ∧ card'.amountEl = some amountEl' ∧ amountEl'.textContent = "15")
    ∧ clickBillingOption 0 pricingDemo = pricingDemo := by
  obtain ⟨h1, _h2, h3⟩ := pricing_yearly_update_correct pricingDemo
  refine ⟨h1 0 _ ⟨"19", [("monthly", "19"), ("yearly", "15")]⟩
      ⟨"#m1", [("monthlyLink", "#m1"), ("yearlyLink", "#y1")]⟩ "15"
      rfl rfl rfl rfl (by decide), h3 0 ⟨"monthly", true, "true"⟩ rfl rfl⟩

/-- C10: `updatePricing` leaves a card entirely unchanged when its `.amount`
or `.plan-cta` is missing; with both present it leaves the displayed amount
unchanged when the price attribute for the selected cycle is absent and the
CTA `href` unchanged when the link attribute is absent; and in every case
the suffix labels and the remaining cards are still updated. -/
theorem updatePricing_missing_data_frame (billing : String) (st : PricingState) (i : Nat) :
    (∀ card, st.cards[i]? = some card → (card.amountEl = none ∨ card.cta = none) →
        (updatePricing billing st).cards[i]? = some card)
    ∧ (∀ card amountEl cta, st.cards[i]? = some card →
        card.amountEl = some amountEl → card.cta = some cta →
        amountEl.dataset.lookup billing = none →
        ∃ card' amountEl', (updatePricing billing st).cards[i]? = some card'
          ∧ card'.amountEl = some amountEl'
          ∧ amountEl'.textContent = amountEl.textContent)
    ∧ (∀ card amountEl cta, st.cards[i]? = some card →
        card.amountEl = some amountEl → card.cta = some cta →
        cta.dataset.lookup (billing ++ "Link") = none →
        ∃ card' cta', (updatePricing billing st).cards[i]? = some card'
          ∧ card'.cta = some cta' ∧ cta'.href = cta.href)
    ∧ ((updatePricing billing st).suffixes
        = st.suffixes.map fun _ => if billing == "yearly" then "/mo billed yearly" else "/mo")
    ∧ ((updatePricing billing st).cards = st.cards.map (updateCard billing)) := by
  refine ⟨?_, ?_, ?_, rfl, rfl⟩
  · intro card hcard hmiss
    have hcc : updateCard billing card = card := by
      rcases hmiss with h | h
      · simp [updateCard, h]
      · cases hae : card.amountEl <;> simp [updateCard, hae, h]
    simp [updatePricing, List.getElem?_map, hcard, hcc]
  · intro card amountEl cta hcard hamount hcta hprice
    refine ⟨updateCard billing card, amountEl, ?_, ?_, rfl⟩
    · simp [updatePricing, List.getElem?_map, hcard]
    · simp [updateCard, hamount, hcta, hprice]
  · intro card amountEl cta hcard hamount hcta hlink
    refine ⟨updateCard billing card, cta, ?_, ?_, rfl⟩
    · simp [updatePricing, List.getElem?_map, hcard]
    · simp [updateCard, hamount, hcta, hlink]

/-- Witness for C10: in `pricingDemo`, the second card keeps its monthly
amount text and CTA link when switched to yearly, and the third card (with
no inner elements) is returned untouched. -/
theorem updatePricing_missing_data_frame_witness :
    ((updatePricing "yearly" pricingDemo).cards[2]? = some { amountEl := none, cta := none })
    ∧ (∃ card' amountEl', (updatePricing "yearly" pricingDemo).cards[1]? = some card'
        ∧ card'.amountEl = some amountEl' ∧ amountEl'.textContent = "49")
    ∧ (∃ card' cta', (updatePricing "yearly" pricingDemo).cards[1]? = some card'
        ∧ card'.cta = some cta' ∧ cta'.href = "#m2") := by
  obtain ⟨h1, h2, h3, _h4, _h5⟩ := updatePricing_missing_data_frame "yearly" pricingDemo 2
  obtain ⟨_g1, g2, g3, _g4, _g5⟩ := updatePricing_missing_data_frame "yearly" pricingDemo 1
  refine ⟨h1 { amountEl := none, cta := none } rfl (Or.inl rfl), ?_, ?_⟩
  · exact g2 _ ⟨"49", [("monthly", "49")]⟩ ⟨"#m2", []⟩ rfl rfl rfl rfl
  · exact g3 _ ⟨"49", [("monthly", "49")]⟩ ⟨"#m2", []⟩ rfl rfl rfl rfl

/-- C6: opening the lightbox and then closing it restores focus to exactly
the element focused immediately before opening, flips `aria-hidden` back to
"true", clears the lightbox image's `src` and `alt`, and removes the body
overflow lock. -/
theorem lightbox_focus_roundtrip (st : LightboxState) (img : GalleryImage) (e : DomElem)
    (hactive : st.activeElement = some e) (hhtml : e.isHTMLElement = true)
    (hlb : st.ariaHidden.isSome) (himg : st.image.isSome) (hcap : st.caption.isSome) :
    (hideLightbox (openLightbox img st)).activeElement = some e
    ∧ (hideLightbox (openLightbox img st)).ariaHidden = some "true"
    ∧ (hideLightbox (openLightbox img st)).image
        = some { src := "", alt := "" }
    ∧ (hideLightbox (openLightbox img st)).bodyOverflow = "" := by
  obtain ⟨hv, hlb⟩ := Option.isSome_iff_exists.mp hlb
  obtain ⟨iv, himg⟩ := Option.isSome_iff_exists.mp himg
  obtain ⟨cv, hcap⟩ := Option.isSome_iff_exists.mp hcap
  have hopen : openLightbox img st =
      { st with
        lastFocusedElement := st.activeElement,
        image := some { src := img.src, alt := img.alt },
        caption := some (img.lightboxData.getD ""),
        ariaHidden := some "false",
        activeElement := match st.closeBtn with
          | some c => some c
          | none => st.activeElement,
        bodyOverflow := "hidden" } := by
    rw [openLightbox.eq_def, hlb, himg, hcap]
  rw [hopen]
  simp [hideLightbox, hactive, hhtml]

/-- Witness for C6 on the concrete state `lightboxDemo`. -/
theorem lightbox_focus_roundtrip_witness :
    (hideLightbox (openLightbox thumbDemo lightboxDemo)).activeElement = some ⟨3, true⟩
    ∧ (hideLightbox (openLightbox thumbDemo lightboxDemo)).ariaHidden = some "true"
    ∧ (hideLightbox (openLightbox thumbDemo lightboxDemo)).image
        = some { src := "", alt := "" }
    ∧ (hideLightbox (openLightbox thumbDemo lightboxDemo)).bodyOverflow = "" :=
  lightbox_focus_roundtrip lightboxDemo thumbDemo ⟨3, true⟩ rfl rfl rfl rfl rfl

/-- C5: submitting the contact form with an empty required field whose error
slot exists writes exactly "This field is required." into that slot and
returns before any fetch is initiated. -/
theorem empty_required_name_blocks_submit (st : ContactFormState) (i : Nat) (f : FormFieldEl)
    (outcome : FetchOutcome) (rand : ℚ) (slot : String)
    (hf : st.fields[i]? = some f) (hreq : f.required = true) (hval : f.value = "")
    (hslot : f.errorSlot = some slot) :
    (∃ f', (submitContactForm st outcome rand).1.fields[i]? = some f'
        ∧ f'.errorSlot = some "This field is required.")
    ∧ (submitContactForm st outcome rand).2 = false := by
  have hmiss : valueMissing f = true := by simp [valueMissing, hreq, hval]
  have hinvalid : fieldValid f = false := by simp [fieldValid, hmiss]
  have hvf : validateField f = (setFieldError "This field is required." f, false) := by
    simp [validateField, hinvalid, hmiss]
  have hmem : f ∈ st.fields := by
    obtain ⟨hlt, hget⟩ := List.getElem?_eq_some.mp hf
    exact hget ▸ List.getElem_mem hlt
  have hall : (st.fields.all fun g => (validateField g).2) = false := by
    rw [List.all_eq_false]
    exact ⟨f, hmem, by simp [hvf]⟩
  have hva2 : (validateAll st.fields).2 = false := hall
  constructor
  · refine ⟨setFieldError "This field is required." f, ?_, by simp [setFieldError, hslot]⟩
    have hfield : (validateAll st.fields).1[i]? = some (setFieldError "This field is required." f) := by
      simp [validateAll, List.getElem?_map, hf, hvf]
    simp only [submitContactForm, hva2]
    simpa using hfield
  · simp only [submitContactForm, hva2]
    rfl

/-- Witness for C5 on the concrete form `contactDemo`, whose name field is
empty while required. -/
theorem empty_required_name_blocks_submit_witness :
    (∃ f', (submitContactForm contactDemo (.resolved true) 0).1.fields[0]? = some f'
        ∧ f'.errorSlot = some "This field is required.")
    ∧ (submitContactForm contactDemo (.resolved true) 0).2 = false :=
  empty_required_name_blocks_submit contactDemo 0 emptyNameField (.resolved true) 0 ""
    rfl rfl rfl rfl

/-- C3: when the fetch to `/api/contact` rejects (failure or the 1500 ms
abort), the handler waits 600 ms and then resolves success exactly when the
fresh random draw exceeds 0.3; on the failure outcome the entered field
values are left intact and the status region shows the generic failure
message, while on the success outcome every field is reset to its default
value and every existing error slot is cleared. -/
theorem contact_fallback_spec (st : ContactFormState) (rand : ℚ) (s0 : String)
    (hstatus : st.statusText = some s0) :
    fallbackDelayMs = 600
    ∧ (resolveSubmitSuccess .rejected rand = true ↔ rand > 3/10)
    ∧ (rand ≤ 3/10 →
        (finishSubmit (resolveSubmitSuccess .rejected rand) st).fields = st.fields
        ∧ (finishSubmit (resolveSubmitSuccess .rejected rand) st).statusText
            = some "Something went wrong. Please try again later. (Demo response)")
    ∧ (rand > 3/10 →
        (finishSubmit (resolveSubmitSuccess .rejected rand) st).fields.map (·.value)
            = st.fields.map (·.defaultValue)
        ∧ (∀ f ∈ (finishSubmit (resolveSubmitSuccess .rejected rand) st).fields,
            f.errorSlot = none ∨ f.errorSlot = some "")
        ∧ (finishSubmit (resolveSubmitSuccess .rejected rand) st).statusText
            = some "Message sent! We will reach out shortly. (Demo response)") := by
  refine ⟨rfl, by simp [resolveSubmitSuccess], ?_, ?_⟩
  · intro hle
    have hs : resolveSubmitSuccess .rejected rand = false := by
      simp [resolveSubmitSuccess]
      exact hle
    rw [hs]
    constructor <;> simp [finishSubmit, hstatus]
  · intro hgt
    have hs : resolveSubmitSuccess .rejected rand = true := by
      simp [resolveSubmitSuccess]
      exact hgt
    rw [hs]
    refine ⟨?_, ?_, by simp [finishSubmit, hstatus]⟩
    · simp [finishSubmit, hstatus, setFieldError]
    · intro f hfmem
      simp only [finishSubmit, hstatus, if_true, List.mem_map] at hfmem
      obtain ⟨g, _, hg⟩ := hfmem
      cases hslot : g.errorSlot with
      | none => left; rw [← hg]; simp [setFieldError, hslot]
      | some s => right; rw [← hg]; simp [setFieldError, hslot]

/-- Witness for C3: with the valid concrete form `contactFilledDemo`, a draw
of 1/5 fails and leaves the fields alone, a draw of 1/2 succeeds, resets the
fields and clears the slots. -/
theorem contact_fallback_spec_witness :
    (finishSubmit (resolveSubmitSuccess .rejected (1/5)) contactFilledDemo).fields
        = contactFilledDemo.fields
    ∧ (finishSubmit (resolveSubmitSuccess .rejected (1/2)) contactFilledDemo).statusText
        = some "Message sent! We will reach out shortly. (Demo response)" := by
  obtain ⟨_, _, hfail, _⟩ := contact_fallback_spec contactFilledDemo (1/5) "" rfl
  obtain ⟨_, _, _, hsucc⟩ := contact_fallback_spec contactFilledDemo (1/2) "" rfl
  exact ⟨(hfail (by norm_num)).1, (hsucc (by norm_num)).2.2⟩

/-- Once a frame time reaches the end of the duration, that frame's text is
the exactly formatted target. -/
theorem counterFrameText_done (target : ℤ) (t0 t : ℚ) (h : counterDuration ≤ t - t0) :
    counterFrameText target t0 t = toLocaleString target := by
  have hone : counterProgress t0 t = 1 := by
    have hpos : (0 : ℚ) < counterDuration := by norm_num [counterDuration]
    have : (1 : ℚ) ≤ (t - t0) / counterDuration := by
      rw [le_div_iff₀ hpos]
      simpa using h
    simp [counterProgress, min_eq_right this]
  simp [counterFrameText, hone]

/-- C4: the counter animation's final displayed text is exactly the target
formatted with locale grouping — once any frame time reaches the 1600 ms
duration the loop ends on the snapped target, whatever the floored
intermediate values were — and every intermediate frame (progress below 1)
displays the floor of the target scaled by the ease-in-out-quadratic
curve; under reduced motion the target is written directly. -/
theorem counter_final_snaps (target : ℤ) (t0 : ℚ) (frames : List ℚ) (text0 : String)
    (hdone : ∃ t ∈ frames, counterDuration ≤ t - t0) :
    animateCounter false target t0 frames text0 = toLocaleString target
    ∧ (∀ t : ℚ, counterProgress t0 t < 1 →
        counterFrameText target t0 t
          = toLocaleString ⌊(target : ℚ) * easeInOutQuad (counterProgress t0 t)⌋)
    ∧ animateCounter true target t0 frames text0 = toLocaleString target := by
  refine ⟨?_, ?_, rfl⟩
  · show runCounter target t0 frames text0 = toLocaleString target
    induction frames generalizing text0 with
    | nil => simp at hdone
    | cons t ts ih =>
      rw [runCounter]
      by_cases hlt : counterProgress t0 t < 1
      · rw [if_pos hlt]
        apply ih
        obtain ⟨u, hu, hdu⟩ := hdone
        rcases List.mem_cons.mp hu with h | h
        · exfalso
          subst h
          exact absurd (counterFrameText_done target t0 u hdu) (by
            intro _
            have hone : counterProgress t0 u = 1 := by
              have hpos : (0 : ℚ) < counterDuration := by norm_num [counterDuration]
              have : (1 : ℚ) ≤ (u - t0) / counterDuration := by
                rw [le_div_iff₀ hpos]
                simpa using hdu
              simp [counterProgress, min_eq_right this]
            rw [hone] at hlt
            exact absurd hlt (lt_irrefl 1))
        · exact ⟨u, h, hdu⟩
      · rw [if_neg hlt]
        simp [counterFrameText, if_neg hlt]
  · intro t hlt
    simp [counterFrameText, if_pos hlt]

/-- Witness for C4: a 12500-target animation over frames at 800 ms and
1700 ms ends exactly on "12,500", and the 800 ms frame shows the floored
eased value "6,250". -/
theorem counter_final_snaps_witness :
    animateCounter false 12500 0 [800, 1700] "0" = toLocaleString 12500
    ∧ counterFrameText 12500 0 800
        = toLocaleString ⌊(12500 : ℚ) * easeInOutQuad (counterProgress 0 800)⌋ := by
  obtain ⟨hfinal, hmid, _⟩ :=
    counter_final_snaps 12500 0 [800, 1700] "0" ⟨1700, by simp, by norm_num [counterDuration]⟩
  refine ⟨hfinal, hmid 800 ?_⟩
  norm_num [counterProgress, counterDuration]

/-- `setAccordionState` never changes the number of triggers. -/
theorem setAccordionState_length (st : AccordionState) (i : Nat) (e : Bool) :
    (setAccordionState st i e).triggers.length = st.triggers.length := by
  unfold setAccordionState
  split
  · rfl
  · simp

/-- `setAccordionState` at index `i` leaves every other trigger entry alone. -/
theorem setAccordionState_get_ne (st : AccordionState) (i j : Nat) (e : Bool)
    (hne : j ≠ i) :
    (setAccordionState st i e).triggers[j]? = st.triggers[j]? := by
  unfold setAccordionState
  split
  · rfl
  · simp [List.getElem?_set_ne (Ne.symm hne)]

/-- `setAccordionState` rewrites exactly the `aria-expanded` of trigger `i`. -/
theorem setAccordionState_get_eq (st : AccordionState) (i : Nat) (e : Bool)
    (t : AccordionTrigger) (h : st.triggers[i]? = some t) :
    (setAccordionState st i e).triggers[i]?
      = some { t with ariaExpanded := jsStringOfBool e } := by
  have hlt : i < st.triggers.length := (List.getElem?_eq_some.mp h).1
  rw [setAccordionState.eq_def, h]
  simp [List.getElem?_set_eq_of_lt _ hlt]

/-- The collapse-others fold preserves the trigger count. -/
theorem collapseFold_length (i : Nat) (lst : List Nat) (st : AccordionState) :
    ((lst.foldl (fun acc j => if j == i then acc else setAccordionState acc j false) st)
      ).triggers.length = st.triggers.length := by
  induction lst generalizing st with
  | nil => rfl
  | cons a as ih =>
    rw [List.foldl_cons, ih]
    by_cases h : (a == i) = true
    · rw [if_pos h]
    · rw [if_neg h, setAccordionState_length]

/-- The collapse-others fold leaves an index alone when it is the skipped
index or never appears in the fold list. -/
theorem collapseFold_get_preserved (i : Nat) (lst : List Nat) (st : AccordionState)
    (j : Nat) (hj : j = i ∨ j ∉ lst) :
    ((lst.foldl (fun acc a => if a == i then acc else setAccordionState acc a false) st)
      ).triggers[j]? = st.triggers[j]? := by
  induction lst generalizing st with
  | nil => rfl
  | cons a as ih =>
    rw [List.foldl_cons]
    have hj' : j = i ∨ j ∉ as := by
      rcases hj with h | h
      · exact Or.inl h
      · exact Or.inr fun hm => h (List.mem_cons_of_mem a hm)
    rw [ih _ hj']
    by_cases ha : (a == i) = true
    · rw [if_pos ha]
    · rw [if_neg ha]
      apply setAccordionState_get_ne
      intro hja
      rcases hj with h | h
      · subst hja
        exact ha (by simp [h])
      · exact h (hja ▸ List.mem_cons_self a as)

/-- After the collapse-others fold, every listed index other than the
skipped one carries `aria-expanded="false"`. -/
theorem collapseFold_get_collapsed (i : Nat) (lst : List Nat) (st : AccordionState)
    (j : Nat) (hji : j ≠ i) (hlt : j < st.triggers.length) (hmem : j ∈ lst) :
    ∃ t, ((lst.foldl (fun acc a => if a == i then acc else setAccordionState acc a false) st)
      ).triggers[j]? = some t ∧ t.ariaExpanded = "false" := by
  induction lst generalizing st with
  | nil => cases hmem
  | cons a as ih =>
    rw [List.foldl_cons]
    by_cases hjas : j ∈ as
    · apply ih
      · by_cases ha : (a == i) = true
        · rwa [if_pos ha]
        · rwa [if_neg ha, setAccordionState_length]
      · exact hjas
    · have hja : j = a := by
        rcases List.mem_cons.mp hmem with h | h
        · exact h
        · exact absurd h hjas
      subst hja
      have ha : (j == i) = false := by simp [hji]
      rw [if_neg (by simp [ha])]
      have ht0 : st.triggers[j]? = some st.triggers[j] := List.getElem?_eq_getElem hlt
      refine ⟨{ st.triggers[j] with ariaExpanded := jsStringOfBool false }, ?_, rfl⟩
      rw [collapseFold_get_preserved i as _ j (Or.inr hjas)]
      exact setAccordionState_get_eq st j false _ ht0

/-- `clickTrigger` preserves the trigger count. -/
theorem clickTrigger_length (st : AccordionState) (i : Nat) :
    (clickTrigger st i).triggers.length = st.triggers.length := by
  unfold clickTrigger
  split
  · rfl
  · rw [setAccordionState_length]
    unfold collapseOthers
    exact collapseFold_length i _ st

/-- Clicking trigger `i` collapses every other trigger and toggles the
clicked one, in that order. -/
theorem clickTrigger_collapse_then_toggle (st : AccordionState) (i : Nat)
    (trigger : AccordionTrigger) (hi : st.triggers[i]? = some trigger) :
    (∀ (j : Nat) (t : AccordionTrigger), j ≠ i →
        (clickTrigger st i).triggers[j]? = some t → t.ariaExpanded = "false")
    ∧ (clickTrigger st i).triggers[i]?
        = some { trigger with
                 ariaExpanded := jsStringOfBool (!(trigger.ariaExpanded == "true")) } := by
  have hclick : clickTrigger st i
      = setAccordionState (collapseOthers st i) i (!(trigger.ariaExpanded == "true")) := by
    rw [clickTrigger.eq_def, hi]
  constructor
  · intro j t hji hjt
    rw [hclick, setAccordionState_get_ne _ _ _ _ hji] at hjt
    have hjlt : j < st.triggers.length := by
      have hl := (List.getElem?_eq_some.mp hjt).1
      unfold collapseOthers at hl
      rwa [collapseFold_length] at hl
    obtain ⟨t', ht', hfalse⟩ := collapseFold_get_collapsed i (List.range st.triggers.length)
      st j hji hjlt (List.mem_range.mpr hjlt)
    unfold collapseOthers at hjt
    have heq : t' = t := Option.some.inj (ht'.symm.trans hjt)
    exact heq ▸ hfalse
  · rw [hclick]
    apply setAccordionState_get_eq
    unfold collapseOthers
    rw [collapseFold_get_preserved i _ st i (Or.inl rfl)]
    exact hi

/-- A click always re-establishes the mutual-exclusion invariant. -/
theorem clickTrigger_atMostOne (st : AccordionState) (i : Nat)
    (h : atMostOneExpanded st) : atMostOneExpanded (clickTrigger st i) := by
  cases hi : st.triggers[i]? with
  | none =>
    have hnoop : clickTrigger st i = st := by rw [clickTrigger.eq_def, hi]
    rwa [hnoop]
  | some trigger =>
    intro j k tj tk hj hk hje hke
    obtain ⟨hothers, _⟩ := clickTrigger_collapse_then_toggle st i trigger hi
    have hj' : j = i := by
      by_contra hji
      have hf := hothers j tj hji hj
      rw [hf] at hje
      exact absurd hje (by decide)
    have hk' : k = i := by
      by_contra hki
      have hf := hothers k tk hki hk
      rw [hf] at hke
      exact absurd hke (by decide)
    rw [hj', hk']

/-- The load-time initialization fold preserves the trigger count. -/
theorem initFold_length (lst : List Nat) (st : AccordionState) :
    ((lst.foldl (fun acc a => setAccordionState acc a false) st)).triggers.length
      = st.triggers.length := by
  induction lst generalizing st with
  | nil => rfl
  | cons a as ih => rw [List.foldl_cons, ih, setAccordionState_length]

/-- The initialization fold leaves unlisted indices alone. -/
theorem initFold_get_preserved (lst : List Nat) (st : AccordionState) (j : Nat)
    (hj : j ∉ lst) :
    ((lst.foldl (fun acc a => setAccordionState acc a false) st)).triggers[j]?
      = st.triggers[j]? := by
  induction lst generalizing st with
  | nil => rfl
  | cons a as ih =>
    rw [List.foldl_cons, ih _ (fun hm => hj (List.mem_cons_of_mem a hm))]
    exact setAccordionState_get_ne st a j false
      (fun hja => hj (hja ▸ List.mem_cons_self a as))

/-- After the initialization fold, every listed index is collapsed. -/
theorem initFold_get_collapsed (lst : List Nat) (st : AccordionState) (j : Nat)
    (hlt : j < st.triggers.length) (hmem : j ∈ lst) :
    ∃ t, ((lst.foldl (fun acc a => setAccordionState acc a false) st)).triggers[j]? = some t
      ∧ t.ariaExpanded = "false" := by
  induction lst generalizing st with
  | nil => cases hmem
  | cons a as ih =>
    rw [List.foldl_cons]
    by_cases hjas : j ∈ as
    · exact ih _ (by rwa [setAccordionState_length]) hjas
    · have hja : j = a := by
        rcases List.mem_cons.mp hmem with h | h
        · exact h
        · exact absurd h hjas
      subst hja
      have ht0 : st.triggers[j]? = some st.triggers[j] := List.getElem?_eq_getElem hlt
      refine ⟨{ st.triggers[j] with ariaExpanded := jsStringOfBool false }, ?_, rfl⟩
      rw [initFold_get_preserved as _ j hjas]
      exact setAccordionState_get_eq st j false _ ht0

/-- The initial all-collapsed state satisfies the invariant. -/
theorem initAccordion_atMostOne (st : AccordionState) :
    atMostOneExpanded (initAccordion st) := by
  intro j k tj tk hj hk hje _hke
  exfalso
  have hjlt : j < st.triggers.length := by
    have hl := (List.getElem?_eq_some.mp hj).1
    unfold initAccordion at hl
    rwa [initFold_length] at hl
  obtain ⟨t', ht', hfalse⟩ := initFold_get_collapsed (List.range st.triggers.length)
    st j hjlt (List.mem_range.mpr hjlt)
  unfold initAccordion at hj
  have heq : t' = tj := Option.some.inj (ht'.symm.trans hj)
  rw [heq] at hfalse
  rw [hfalse] at hje
  exact absurd hje (by decide)

/-- Any click sequence keeps the invariant. -/
theorem applyClicks_preserves (clicks : List Nat) :
    ∀ st, atMostOneExpanded st → atMostOneExpanded (applyClicks clicks st) := by
  induction clicks with
  | nil => intro st h; exact h
  | cons c cs ih =>
    intro st h
    have hstep : applyClicks (c :: cs) st = applyClicks cs (clickTrigger st c) := by
      simp [applyClicks]
    rw [hstep]
    exact ih _ (clickTrigger_atMostOne st c h)

/-- C2: from the initial all-collapsed state, every sequence of accordion
trigger clicks leaves at most one trigger with `aria-expanded="true"`; a
click on trigger `i` first collapses every other trigger and then toggles
the clicked one relative to what it displayed before the click. -/
theorem accordion_mutual_exclusion (st : AccordionState) (clicks : List Nat) :
    atMostOneExpanded (applyClicks clicks (initAccordion st))
    ∧ ∀ (cur : AccordionState) (i : Nat) (trigger : AccordionTrigger),
        cur.triggers[i]? = some trigger →
        (∀ (j : Nat) (t : AccordionTrigger), j ≠ i →
            (clickTrigger cur i).triggers[j]? = some t → t.ariaExpanded = "false")
        ∧ (clickTrigger cur i).triggers[i]?
            = some { trigger with
                     ariaExpanded := jsStringOfBool (!(trigger.ariaExpanded == "true")) } :=
  ⟨applyClicks_preserves clicks _ (initAccordion_atMostOne st),
   fun cur i trigger hi => clickTrigger_collapse_then_toggle cur i trigger hi⟩

/-- Witness for C2 on the two-trigger accordion `accordionDemo`: clicking
trigger 0 after initialization expands it and collapses trigger 1. -/
theorem accordion_mutual_exclusion_witness :
    atMostOneExpanded (applyClicks [0, 1, 0] (initAccordion accordionDemo))
    ∧ (clickTrigger (initAccordion accordionDemo) 0).triggers[0]?
        = some ⟨"faq-t0", some "faq-p0", "true"⟩
    ∧ (∃ t, (clickTrigger (initAccordion accordionDemo) 0).triggers[1]? = some t
        ∧ t.ariaExpanded = "false") := by
  obtain ⟨hinv, hclick⟩ := accordion_mutual_exclusion accordionDemo [0, 1, 0]
  obtain ⟨hothers, hself⟩ := hclick (initAccordion accordionDemo) 0
    ⟨"faq-t0", some "faq-p0", "false"⟩ (by decide)
  refine ⟨hinv, by simpa using hself, ?_⟩
  refine ⟨⟨"faq-t1", some "faq-p1", "false"⟩, by decide, rfl⟩
